import Mathlib

/-!
Shallow embedding of `VROMaterial`
(src/ios/ViroRenderer/ViroKit.framework/Headers/VROMaterial.h): the material
representation and substrate-synchronization subsystem of the Viro renderer.

Modelling conventions:
* Shared-pointer identity (texture contents, shader modifiers, substrate
  handles) is modelled by `Nat` reference ids: two fields holding the same id
  model two `std::shared_ptr`s to the same object.
* C++ `float` scalar fields (`_shininess`, `_fresnelExponent`,
  `_transparency`, channel constants) are modelled by `Rat`: the code only
  stores and reads them back, it never computes with them.
* The repository contains only the class header. Methods whose bodies are
  written inline in the header (`setName`, `setTransparencyMode`,
  `setLightingModel`, `setCullMode`, `setWritesToDepthBuffer`,
  `setReadsFromDepthBuffer`, all getters, `isUpdated`) are translated
  directly from that code. Methods that the header only declares
  (`setShininess`, `setFresnelExponent`, `setTransparency`,
  `addShaderModifier`, `fadeSnapshot`, `getSubstrate`, `updateSortKey`,
  `updateSubstrate`, the constructors) are modelled from the spec and carry a
  `Modelled from the spec:` doc comment.
* The ambient "is an animation transaction active" query of the external
  animation framework is passed to `fadeSnapshot` as an explicit `Bool`.
* The external substrate boundary is a `VRODriver` record holding the
  `buildSubstrate` function; `getSubstrate` reports how often it invoked the
  boundary so that rebuild-count properties are statable.
-/

/-- Face culling mode, translated from `enum class VROCullMode`. -/
inductive VROCullMode
  | Back
  | Front
  | None
  deriving DecidableEq

/-- Blend mode, translated from `enum class VROBlendMode`. -/
inductive VROBlendMode
  | Alpha
  | Add
  | Subtract
  | Multiply
  | Screen
  | Replace
  deriving DecidableEq

/-- Transparency mode, translated from `enum class VROTransparencyMode`. -/
inductive VROTransparencyMode
  | AOne
  | RGBZero
  deriving DecidableEq

/-- Lighting model, translated from `enum class VROLightingModel`. -/
inductive VROLightingModel
  | Phong
  | Blinn
  | Lambert
  | Constant
  deriving DecidableEq

/-- Modelled from the spec: the active content representation of one visual
channel (`VROMaterialVisual.h` is not in the repository). Exactly one
representation is active at a time: a constant color/scalar value, or a
shared texture-content reference, modelled by its reference id. -/
inductive VROVisualContent
  | value (v : Rat)
  | texture (contentsRef : Nat)
  deriving DecidableEq

/-- Modelled from the spec: one visual channel of a material
(`VROMaterialVisual`), holding its active content representation plus a
channel parameter (intensity). -/
structure VROMaterialVisual where
  content : VROVisualContent
  intensity : Rat
  deriving DecidableEq

/-- Modelled from the spec: replace the channel content with a constant
value. -/
def VROMaterialVisual.setConstant (vis : VROMaterialVisual) (v : Rat) :
    VROMaterialVisual :=
  { vis with content := VROVisualContent.value v }

/-- Modelled from the spec: replace the channel content with a (shared)
texture-content reference. -/
def VROMaterialVisual.setContents (vis : VROMaterialVisual) (ref : Nat) :
    VROMaterialVisual :=
  { vis with content := VROVisualContent.texture ref }

/-- The value fields of a `VROMaterial`: the nine visual channels, the
scalar/enum shading state, the debug name and the ordered shader-modifier
list (shared modifier objects modelled by reference ids). These are exactly
the fields a fade snapshot freezes and a substrate build consumes. -/
structure VROMaterialState where
  name : String
  diffuse : VROMaterialVisual
  specular : VROMaterialVisual
  normal : VROMaterialVisual
  reflective : VROMaterialVisual
  emission : VROMaterialVisual
  transparent : VROMaterialVisual
  multiply : VROMaterialVisual
  ambientOcclusion : VROMaterialVisual
  selfIllumination : VROMaterialVisual
  shininess : Rat
  fresnelExponent : Rat
  transparency : Rat
  transparencyMode : VROTransparencyMode
  lightingModel : VROLightingModel
  litPerPixel : Bool
  cullMode : VROCullMode
  blendMode : VROBlendMode
  writesToDepthBuffer : Bool
  readsFromDepthBuffer : Bool
  shaderModifiers : List Nat
  deriving DecidableEq

/-- A `VROMaterial`: its unique id, its value state, the optional outgoing
fade snapshot (the real `_outgoing` is a `shared_ptr<VROMaterial>`; the
claims observe only its frozen channel/scalar/enum values, so it is modelled
as a frozen `VROMaterialState`), and the cached substrate handle
(`_substrate`, a raw pointer that is `nullptr` when absent, modelled by
`Option` of a substrate reference id). -/
structure VROMaterial where
  materialId : Nat
  state : VROMaterialState
  outgoing : Option VROMaterialState
  substrate : Option Nat
  deriving DecidableEq

/-- Translated from the header: `getName` returns `_name`. -/
def VROMaterial.getName (m : VROMaterial) : String :=
  m.state.name

/-- Translated from the header: `getMaterialId` returns `_materialId`. -/
def VROMaterial.getMaterialId (m : VROMaterial) : Nat :=
  m.materialId

/-- Translated from the header: `getDiffuse` returns `*_diffuse`. -/
def VROMaterial.getDiffuse (m : VROMaterial) : VROMaterialVisual :=
  m.state.diffuse

/-- Translated from the header: `getSpecular` returns `*_specular`. -/
def VROMaterial.getSpecular (m : VROMaterial) : VROMaterialVisual :=
  m.state.specular

/-- Translated from the header: `getNormal` returns `*_normal`. -/
def VROMaterial.getNormal (m : VROMaterial) : VROMaterialVisual :=
  m.state.normal

/-- Translated from the header: `getReflective` returns `*_reflective`. -/
def VROMaterial.getReflective (m : VROMaterial) : VROMaterialVisual :=
  m.state.reflective

/-- Translated from the header: `getEmission` returns `*_emission`. -/
def VROMaterial.getEmission (m : VROMaterial) : VROMaterialVisual :=
  m.state.emission

/-- Translated from the header: `getTransparent` returns `*_transparent`. -/
def VROMaterial.getTransparent (m : VROMaterial) : VROMaterialVisual :=
  m.state.transparent

/-- Translated from the header: `getMultiply` returns `*_multiply`. -/
def VROMaterial.getMultiply (m : VROMaterial) : VROMaterialVisual :=
  m.state.multiply

/-- Translated from the header: `getAmbientOcclusion` returns
`*_ambientOcclusion`. -/
def VROMaterial.getAmbientOcclusion (m : VROMaterial) : VROMaterialVisual :=
  m.state.ambientOcclusion

/-- Translated from the header: `getSelfIllumination` returns
`*_selfIllumination`. -/
def VROMaterial.getSelfIllumination (m : VROMaterial) : VROMaterialVisual :=
  m.state.selfIllumination

/-- Translated from the header: `getShininess` returns `_shininess`. -/
def VROMaterial.getShininess (m : VROMaterial) : Rat :=
  m.state.shininess

/-- Translated from the header: `getFresnelExponent` returns
`_fresnelExponent`. -/
def VROMaterial.getFresnelExponent (m : VROMaterial) : Rat :=
  m.state.fresnelExponent

/-- Translated from the header: `getTransparency` returns `_transparency`. -/
def VROMaterial.getTransparency (m : VROMaterial) : Rat :=
  m.state.transparency

/-- Translated from the header: `getTransparencyMode` returns
`_transparencyMode`. -/
def VROMaterial.getTransparencyMode (m : VROMaterial) : VROTransparencyMode :=
  m.state.transparencyMode

/-- Translated from the header: `getLightingModel` returns `_lightingModel`. -/
def VROMaterial.getLightingModel (m : VROMaterial) : VROLightingModel :=
  m.state.lightingModel

/-- Translated from the header: `isLitPerPixel` returns `_litPerPixel`. -/
def VROMaterial.isLitPerPixel (m : VROMaterial) : Bool :=
  m.state.litPerPixel

/-- Translated from the header: `getCullMode` returns `_cullMode`. -/
def VROMaterial.getCullMode (m : VROMaterial) : VROCullMode :=
  m.state.cullMode

/-- Translated from the header: `getBlendMode` returns `_blendMode`. -/
def VROMaterial.getBlendMode (m : VROMaterial) : VROBlendMode :=
  m.state.blendMode

/-- Translated from the header: `getWritesToDepthBuffer` returns
`_writesToDepthBuffer`. -/
def VROMaterial.getWritesToDepthBuffer (m : VROMaterial) : Bool :=
  m.state.writesToDepthBuffer

/-- Translated from the header: `getReadsFromDepthBuffer` returns
`_readsFromDepthBuffer`. -/
def VROMaterial.getReadsFromDepthBuffer (m : VROMaterial) : Bool :=
  m.state.readsFromDepthBuffer

/-- Translated from the header: `getShaderModifiers` returns
`_shaderModifiers`. -/
def VROMaterial.getShaderModifiers (m : VROMaterial) : List Nat :=
  m.state.shaderModifiers

/-- Translated from the header: `getOutgoing` returns `_outgoing`. -/
def VROMaterial.getOutgoing (m : VROMaterial) : Option VROMaterialState :=
  m.outgoing

/-- Translated from the header: `isUpdated` returns
`_substrate == nullptr`. -/
def VROMaterial.isUpdated (m : VROMaterial) : Bool :=
  m.substrate.isNone

/-- Translated from the header: `setName` assigns `_name = name;` and nothing
else. -/
def VROMaterial.setName (m : VROMaterial) (name : String) : VROMaterial :=
  { m with state := { m.state with name := name } }

/-- Modelled from the spec: the body of `updateSubstrate` is declared but not
defined in the repository; per the spec, forcing an update sets the cached
substrate to absent so the next `getSubstrate` call rebuilds it. -/
def VROMaterial.updateSubstrate (m : VROMaterial) : VROMaterial :=
  { m with substrate := none }

/-- Translated from the header: `setTransparencyMode` assigns
`_transparencyMode = mode;` and nothing else — in particular it does not call
`updateSubstrate()`. -/
def VROMaterial.setTransparencyMode (m : VROMaterial)
    (mode : VROTransparencyMode) : VROMaterial :=
  { m with state := { m.state with transparencyMode := mode } }

/-- Translated from the header: `setLightingModel` assigns
`_lightingModel = model;` and nothing else — in particular it does not call
`updateSubstrate()`. -/
def VROMaterial.setLightingModel (m : VROMaterial)
    (model : VROLightingModel) : VROMaterial :=
  { m with state := { m.state with lightingModel := model } }

/-- Translated from the header: `setCullMode` assigns `_cullMode = cullMode;`
and nothing else — in particular it does not call `updateSubstrate()`. -/
def VROMaterial.setCullMode (m : VROMaterial) (cullMode : VROCullMode) :
    VROMaterial :=
  { m with state := { m.state with cullMode := cullMode } }

/-- Translated from the header: `setWritesToDepthBuffer` assigns the field and
then calls `updateSubstrate()`. -/
def VROMaterial.setWritesToDepthBuffer (m : VROMaterial)
    (writesToDepthBuffer : Bool) : VROMaterial :=
  VROMaterial.updateSubstrate
    { m with state := { m.state with writesToDepthBuffer := writesToDepthBuffer } }

/-- Translated from the header: `setReadsFromDepthBuffer` assigns the field
and then calls `updateSubstrate()`. -/
def VROMaterial.setReadsFromDepthBuffer (m : VROMaterial)
    (readsFromDepthBuffer : Bool) : VROMaterial :=
  VROMaterial.updateSubstrate
    { m with state := { m.state with readsFromDepthBuffer := readsFromDepthBuffer } }

/-- Modelled from the spec: the body of `setShininess` is declared but not
defined in the repository; per the spec a setter applies the value, then
invalidates the cached substrate (interpolation by the external animation
framework is outside this embedding, which records the end value). -/
def VROMaterial.setShininess (m : VROMaterial) (shininess : Rat) :
    VROMaterial :=
  VROMaterial.updateSubstrate
    { m with state := { m.state with shininess := shininess } }

/-- Modelled from the spec: the body of `setFresnelExponent` is declared but
not defined in the repository; applies the value, then invalidates the cached
substrate. -/
def VROMaterial.setFresnelExponent (m : VROMaterial) (fresnelExponent : Rat) :
    VROMaterial :=
  VROMaterial.updateSubstrate
    { m with state := { m.state with fresnelExponent := fresnelExponent } }

/-- Modelled from the spec: the body of `setTransparency` is declared but not
defined in the repository; applies the value, then invalidates the cached
substrate. -/
def VROMaterial.setTransparency (m : VROMaterial) (transparency : Rat) :
    VROMaterial :=
  VROMaterial.updateSubstrate
    { m with state := { m.state with transparency := transparency } }

/-- Modelled from the spec: a channel mutator (here on the diffuse channel;
the source routes these through the mutable reference returned by
`getDiffuse`) replaces the channel and transitively marks the owning material
dirty, invalidating the cached substrate. -/
def VROMaterial.setDiffuse (m : VROMaterial) (vis : VROMaterialVisual) :
    VROMaterial :=
  VROMaterial.updateSubstrate
    { m with state := { m.state with diffuse := vis } }

/-- Modelled from the spec: the body of `addShaderModifier` is declared but
not defined in the repository; it appends the shared modifier reference to
the end of the ordered `_shaderModifiers` sequence and invalidates the cached
substrate. -/
def VROMaterial.addShaderModifier (m : VROMaterial) (modifier : Nat) :
    VROMaterial :=
  VROMaterial.updateSubstrate
    { m with state :=
        { m.state with shaderModifiers := m.state.shaderModifiers ++ [modifier] } }

/-- Modelled from the spec: the body of `fadeSnapshot` is declared but not
defined in the repository. If no animation transaction is active (the ambient
query passed here as `transactionActive`), the call is a no-op; otherwise it
stores a frozen copy of the material's current values as `_outgoing` (the
removal callback that later clears `_outgoing` belongs to the external
animation framework). -/
def VROMaterial.fadeSnapshot (m : VROMaterial) (transactionActive : Bool) :
    VROMaterial :=
  if transactionActive then { m with outgoing := some m.state } else m

/-- Modelled from the spec: the external substrate boundary
(`buildSubstrate(materialConfig, driverCapabilities) -> SubstrateHandle |
Failure`), reached through the driver; `none` models a build failure. -/
structure VRODriver where
  buildSubstrate : VROMaterialState → Option Nat

/-- Outcome of one `getSubstrate` call: the returned substrate handle (`none`
models the failure outcome surfaced to the caller), the material afterwards,
and how many times the call invoked the external boundary (the call-count
mock of the spec's testable properties). -/
structure GetSubstrateResult where
  result : Option Nat
  material : VROMaterial
  boundaryCalls : Nat

/-- Modelled from the spec: the body of `getSubstrate` is declared but not
defined in the repository. If a substrate is cached it is returned without
touching the boundary; otherwise the material's current configuration is
handed to the boundary and a successful result is cached. On failure no
internal error state is retained: the material is unchanged and stays with
substrate absent, so a later call retries the build. -/
def VROMaterial.getSubstrate (m : VROMaterial) (driver : VRODriver) :
    GetSubstrateResult :=
  match m.substrate with
  | some s => ⟨some s, m, 0⟩
  | none =>
    match driver.buildSubstrate m.state with
    | some s => ⟨some s, { m with substrate := some s }, 1⟩
    | none => ⟨none, m, 1⟩

/-- Modelled from the spec: the caller-owned sort key. The material writes the
shading-model, transparency-mode and substrate-identity fields; `other`
stands for the remaining bits of the key, which the material must not
touch. -/
structure VROSortKey where
  shadingModel : VROLightingModel
  transparencyMode : VROTransparencyMode
  substrateId : Option Nat
  other : Nat
  deriving DecidableEq

/-- Modelled from the spec: the body of `updateSortKey` is declared but not
defined in the repository. It first ensures the substrate is built (the same
rebuild as `getSubstrate`), then writes shading model, transparency mode and
substrate identity into the caller-owned key, leaving the key's other bits
and the material's own value state untouched. -/
def VROMaterial.updateSortKey (m : VROMaterial) (key : VROSortKey)
    (driver : VRODriver) : VROSortKey × VROMaterial :=
  let r := VROMaterial.getSubstrate m driver
  (⟨r.material.getLightingModel, r.material.getTransparencyMode,
    r.material.substrate, key.other⟩, r.material)

/-- Modelled from the spec: a default-constructed material state. The
constructor body is not in the repository and the concrete defaults are
unspecified there; the particular values below are immaterial to the
properties proved. -/
def defaultState : VROMaterialState where
  name := ""
  diffuse := ⟨VROVisualContent.value 1, 1⟩
  specular := ⟨VROVisualContent.value 1, 1⟩
  normal := ⟨VROVisualContent.value 1, 1⟩
  reflective := ⟨VROVisualContent.value 1, 1⟩
  emission := ⟨VROVisualContent.value 1, 1⟩
  transparent := ⟨VROVisualContent.value 1, 1⟩
  multiply := ⟨VROVisualContent.value 1, 1⟩
  ambientOcclusion := ⟨VROVisualContent.value 1, 1⟩
  selfIllumination := ⟨VROVisualContent.value 1, 1⟩
  shininess := 1
  fresnelExponent := 1
  transparency := 1
  transparencyMode := VROTransparencyMode.AOne
  lightingModel := VROLightingModel.Constant
  litPerPixel := true
  cullMode := VROCullMode.Back
  blendMode := VROBlendMode.Alpha
  writesToDepthBuffer := true
  readsFromDepthBuffer := true
  shaderModifiers := []

/-- Modelled from the spec: `VROMaterial()` assigns the next id from a unique
id allocator (threaded here as an explicit counter), default state, no
outgoing snapshot and no substrate. Returns the material together with the
advanced counter. -/
def VROMaterial.create (nextId : Nat) : VROMaterial × Nat :=
  (⟨nextId, defaultState, none, none⟩, nextId + 1)

/-- Modelled from the spec and the header comment on
`VROMaterial(std::shared_ptr<VROMaterial>)`: the copy takes a fresh id,
copies the original's channel and scalar/enum values into channels/state it
owns itself (texture contents keep the same shared reference ids), and starts
with no outgoing snapshot and no substrate. -/
def VROMaterial.copyFrom (m : VROMaterial) (freshId : Nat) : VROMaterial :=
  ⟨freshId, m.state, none, none⟩

/-- A concrete material with no cached substrate, used to instantiate
hypotheses at concrete inputs. -/
def exampleMaterial : VROMaterial :=
  ⟨0, defaultState, none, none⟩

/-- A concrete material whose substrate has been built (handle id 7). -/
def builtMaterial : VROMaterial :=
  ⟨1, defaultState, none, some 7⟩

/-- A concrete driver whose boundary always builds successfully, returning
substrate handle 42. -/
def exampleDriver : VRODriver :=
  ⟨fun _ => some 42⟩

/-- A concrete driver whose boundary always reports a build failure. -/
def failingDriver : VRODriver :=
  ⟨fun _ => none⟩

/-- A concrete caller-owned sort key with nonzero caller bits. -/
def exampleSortKey : VROSortKey :=
  ⟨VROLightingModel.Phong, VROTransparencyMode.RGBZero, none, 5⟩

/-- Claim C1: the claim states that `setTransparencyMode`, `setLightingModel`
and `setCullMode` (like every other state-mutating setter) leave `isUpdated()`
true immediately after the call. Their inline bodies in VROMaterial.h only
assign the field: on a material whose substrate is built, all three leave the
substrate cached, so `isUpdated()` returns `false` — contradicting the claim
and the header's own description of `isUpdated` ("Check if the material has
been updated since the last substrate was created"), and breaking the
invalidate-on-set discipline that `setWritesToDepthBuffer`,
`setReadsFromDepthBuffer` and `updateSubstrate()` visibly follow. -/
theorem enum_setters_leave_substrate_cached :
    (builtMaterial.setTransparencyMode VROTransparencyMode.RGBZero).isUpdated
        = false ∧
    (builtMaterial.setLightingModel VROLightingModel.Lambert).isUpdated
        = false ∧
    (builtMaterial.setCullMode VROCullMode.Front).isUpdated = false ∧
    (builtMaterial.setTransparencyMode
        VROTransparencyMode.RGBZero).getTransparencyMode
        = VROTransparencyMode.RGBZero ∧
    builtMaterial.isUpdated = false ∧
    (builtMaterial.setWritesToDepthBuffer false).isUpdated = true ∧
    (builtMaterial.setShininess 2).isUpdated = true ∧
    builtMaterial.updateSubstrate.isUpdated = true :=
  ⟨rfl, rfl, rfl, rfl, rfl, rfl, rfl, rfl⟩

/-- Claim C2: with no intervening mutation and a successful first build, a
second `getSubstrate` call returns the identical cached substrate, invokes
the external boundary zero times, leaves the material as it was, and
`isUpdated()` is false after each call. -/
theorem getSubstrate_second_call_cached (m : VROMaterial) (driver : VRODriver)
    (s : Nat) (h : (m.getSubstrate driver).result = some s) :
    ((m.getSubstrate driver).material.getSubstrate driver).result
        = (m.getSubstrate driver).result ∧
    ((m.getSubstrate driver).material.getSubstrate driver).boundaryCalls
        = 0 ∧
    ((m.getSubstrate driver).material.getSubstrate driver).material
        = (m.getSubstrate driver).material ∧
    (m.getSubstrate driver).material.isUpdated = false ∧
    ((m.getSubstrate driver).material.getSubstrate driver).material.isUpdated
        = false := by
  cases hsub : m.substrate with
  | some t =>
      simp [VROMaterial.getSubstrate, hsub, VROMaterial.isUpdated]
  | none =>
      cases hb : driver.buildSubstrate m.state with
      | some u =>
          simp [VROMaterial.getSubstrate, hsub, hb, VROMaterial.isUpdated]
      | none =>
          simp [VROMaterial.getSubstrate, hsub, hb] at h

/-- Witness for C2 at a concrete material and driver: the hypothesis (the
first call builds substrate handle 42) holds by evaluation. -/
theorem getSubstrate_second_call_cached_witness :
    (exampleMaterial.getSubstrate exampleDriver).result = some 42 ∧
    (((exampleMaterial.getSubstrate
          exampleDriver).material.getSubstrate exampleDriver).result
        = (exampleMaterial.getSubstrate exampleDriver).result ∧
      ((exampleMaterial.getSubstrate
          exampleDriver).material.getSubstrate exampleDriver).boundaryCalls
        = 0 ∧
      ((exampleMaterial.getSubstrate
          exampleDriver).material.getSubstrate exampleDriver).material
        = (exampleMaterial.getSubstrate exampleDriver).material ∧
      (exampleMaterial.getSubstrate exampleDriver).material.isUpdated
        = false ∧
      ((exampleMaterial.getSubstrate
          exampleDriver).material.getSubstrate
          exampleDriver).material.isUpdated = false) :=
  ⟨rfl, getSubstrate_second_call_cached exampleMaterial exampleDriver 42 rfl⟩

/-- Claim C3: `fadeSnapshot` with an active animation transaction stores an
outgoing snapshot equal to the material's values at the moment of the call,
leaves the material's own values unchanged, and every subsequent mutation of
the original (each setter, the channel mutator, `addShaderModifier`,
`setName`) leaves the snapshot's frozen values untouched. -/
theorem fadeSnapshot_active_freezes_values (m : VROMaterial) (v : Rat)
    (mode : VROTransparencyMode) (lm : VROLightingModel) (cm : VROCullMode)
    (b : Bool) (vis : VROMaterialVisual) (modifier : Nat) (n : String) :
    (m.fadeSnapshot true).getOutgoing = some m.state ∧
    (m.fadeSnapshot true).state = m.state ∧
    ((m.fadeSnapshot true).setShininess v).getOutgoing = some m.state ∧
    ((m.fadeSnapshot true).setFresnelExponent v).getOutgoing = some m.state ∧
    ((m.fadeSnapshot true).setTransparency v).getOutgoing = some m.state ∧
    ((m.fadeSnapshot true).setTransparencyMode mode).getOutgoing
        = some m.state ∧
    ((m.fadeSnapshot true).setLightingModel lm).getOutgoing = some m.state ∧
    ((m.fadeSnapshot true).setCullMode cm).getOutgoing = some m.state ∧
    ((m.fadeSnapshot true).setWritesToDepthBuffer b).getOutgoing
        = some m.state ∧
    ((m.fadeSnapshot true).setReadsFromDepthBuffer b).getOutgoing
        = some m.state ∧
    ((m.fadeSnapshot true).setDiffuse vis).getOutgoing = some m.state ∧
    ((m.fadeSnapshot true).addShaderModifier modifier).getOutgoing
        = some m.state ∧
    ((m.fadeSnapshot true).setName n).getOutgoing = some m.state :=
  ⟨rfl, rfl, rfl, rfl, rfl, rfl, rfl, rfl, rfl, rfl, rfl, rfl, rfl⟩

/-- Claim C4: `fadeSnapshot` with no active animation transaction is a
no-op: the material is unchanged, and when no outgoing snapshot existed
before the call, `getOutgoing` still returns none afterwards. -/
theorem fadeSnapshot_inactive_noop (m : VROMaterial)
    (h : m.getOutgoing = none) :
    m.fadeSnapshot false = m ∧ (m.fadeSnapshot false).getOutgoing = none :=
  ⟨rfl, h⟩

/-- Witness for C4 at a concrete material: the hypothesis (no outgoing
snapshot) holds by evaluation. -/
theorem fadeSnapshot_inactive_noop_witness :
    exampleMaterial.getOutgoing = none ∧
    (exampleMaterial.fadeSnapshot false = exampleMaterial ∧
      (exampleMaterial.fadeSnapshot false).getOutgoing = none) :=
  ⟨rfl, fadeSnapshot_inactive_noop exampleMaterial rfl⟩

/-- The original and the copy, side by side, so that mutation of the copy and
its effect on the original are observable in one state. -/
def copyPair (m : VROMaterial) (freshId : Nat) : VROMaterial × VROMaterial :=
  (m, m.copyFrom freshId)

/-- Mutate the shininess of the copy component, leaving the original
component alone (the copy owns its state, so the C++ mutation touches only
the copy's memory). -/
def setCopyShininess (p : VROMaterial × VROMaterial) (v : Rat) :
    VROMaterial × VROMaterial :=
  (p.1, p.2.setShininess v)

/-- Claim C5: a copy-constructed material starts with its substrate absent
(`isUpdated()` true) and no outgoing snapshot, its channel and scalar/enum
values equal the original's with texture contents sharing the same reference
ids, and mutating the copy's shininess changes the copy without changing the
original. -/
theorem copy_constructor_semantics (m : VROMaterial) (freshId : Nat)
    (v : Rat) :
    (m.copyFrom freshId).isUpdated = true ∧
    (m.copyFrom freshId).getOutgoing = none ∧
    (m.copyFrom freshId).state = m.state ∧
    (m.copyFrom freshId).getDiffuse.content = m.getDiffuse.content ∧
    (m.copyFrom freshId).getMaterialId = freshId ∧
    (setCopyShininess (copyPair m freshId) v).2.getShininess = v ∧
    (setCopyShininess (copyPair m freshId) v).1.getShininess
        = m.getShininess :=
  ⟨rfl, rfl, rfl, rfl, rfl, rfl, rfl⟩

/-- Claim C6: `addShaderModifier` appends the modifier at the end of the
existing ordered sequence (prior elements and their order preserved, length
grows by one, new modifier last) and invalidates any previously built
substrate. -/
theorem addShaderModifier_appends_and_invalidates (m : VROMaterial)
    (modifier : Nat) :
    (m.addShaderModifier modifier).getShaderModifiers
        = m.getShaderModifiers ++ [modifier] ∧
    (m.addShaderModifier modifier).getShaderModifiers.length
        = m.getShaderModifiers.length + 1 ∧
    (m.addShaderModifier modifier).isUpdated = true := by
  refine ⟨rfl, ?_, rfl⟩
  simp [VROMaterial.addShaderModifier, VROMaterial.getShaderModifiers,
    VROMaterial.updateSubstrate]

/-- Claim C7: when the external boundary reports a build failure during
`getSubstrate`, the call surfaces the failure, the material is unchanged —
no internal error state, substrate still absent so `isUpdated()` is true —
and a subsequent `getSubstrate` call invokes the boundary again (retries the
build). -/
theorem getSubstrate_failure_leaves_fresh (m : VROMaterial)
    (driver : VRODriver) (habs : m.substrate = none)
    (hfail : driver.buildSubstrate m.state = none) :
    (m.getSubstrate driver).result = none ∧
    (m.getSubstrate driver).material = m ∧
    (m.getSubstrate driver).material.isUpdated = true ∧
    ((m.getSubstrate driver).material.getSubstrate driver).boundaryCalls
        = 1 := by
  simp [VROMaterial.getSubstrate, habs, hfail, VROMaterial.isUpdated]

/-- Witness for C7 at a concrete material and an always-failing driver: both
hypotheses hold by evaluation. -/
theorem getSubstrate_failure_leaves_fresh_witness :
    exampleMaterial.substrate = none ∧
    failingDriver.buildSubstrate exampleMaterial.state = none ∧
    ((exampleMaterial.getSubstrate failingDriver).result = none ∧
      (exampleMaterial.getSubstrate failingDriver).material
        = exampleMaterial ∧
      (exampleMaterial.getSubstrate failingDriver).material.isUpdated
        = true ∧
      ((exampleMaterial.getSubstrate
          failingDriver).material.getSubstrate failingDriver).boundaryCalls
        = 1) :=
  ⟨rfl, rfl,
    getSubstrate_failure_leaves_fresh exampleMaterial failingDriver rfl rfl⟩

/-- Claim C8: `updateSortKey` first ensures the substrate is built (it leaves
the material exactly as `getSubstrate` would, so when the build succeeds
`isUpdated()` is false afterwards), then writes the shading-model,
transparency-mode and substrate-identity fields into the caller-owned key,
preserving the key's other bits and the material's value state, outgoing
snapshot and id. -/
theorem updateSortKey_builds_and_writes (m : VROMaterial) (key : VROSortKey)
    (driver : VRODriver)
    (h : (m.getSubstrate driver).result.isSome = true) :
    (m.updateSortKey key driver).2 = (m.getSubstrate driver).material ∧
    (m.updateSortKey key driver).2.isUpdated = false ∧
    (m.updateSortKey key driver).2.state = m.state ∧
    (m.updateSortKey key driver).2.outgoing = m.outgoing ∧
    (m.updateSortKey key driver).2.materialId = m.materialId ∧
    (m.updateSortKey key driver).1.shadingModel = m.getLightingModel ∧
    (m.updateSortKey key driver).1.transparencyMode
        = m.getTransparencyMode ∧
    (m.updateSortKey key driver).1.substrateId
        = (m.updateSortKey key driver).2.substrate ∧
    (m.updateSortKey key driver).1.other = key.other := by
  cases hsub : m.substrate with
  | some t =>
      simp [VROMaterial.updateSortKey, VROMaterial.getSubstrate, hsub,
        VROMaterial.isUpdated, VROMaterial.getLightingModel,
        VROMaterial.getTransparencyMode]
  | none =>
      cases hb : driver.buildSubstrate m.state with
      | some u =>
          simp [VROMaterial.updateSortKey, VROMaterial.getSubstrate, hsub,
            hb, VROMaterial.isUpdated, VROMaterial.getLightingModel,
            VROMaterial.getTransparencyMode]
      | none =>
          simp [VROMaterial.getSubstrate, hsub, hb] at h

/-- Witness for C8 at a concrete material, key and driver: the hypothesis
(the build succeeds) holds by evaluation. -/
theorem updateSortKey_builds_and_writes_witness :
    (exampleMaterial.getSubstrate exampleDriver).result.isSome = true ∧
    ((exampleMaterial.updateSortKey exampleSortKey exampleDriver).2
        = (exampleMaterial.getSubstrate exampleDriver).material ∧
      (exampleMaterial.updateSortKey exampleSortKey
          exampleDriver).2.isUpdated = false ∧
      (exampleMaterial.updateSortKey exampleSortKey exampleDriver).2.state
        = exampleMaterial.state ∧
      (exampleMaterial.updateSortKey exampleSortKey
          exampleDriver).2.outgoing = exampleMaterial.outgoing ∧
      (exampleMaterial.updateSortKey exampleSortKey
          exampleDriver).2.materialId = exampleMaterial.materialId ∧
      (exampleMaterial.updateSortKey exampleSortKey
          exampleDriver).1.shadingModel
        = exampleMaterial.getLightingModel ∧
      (exampleMaterial.updateSortKey exampleSortKey
          exampleDriver).1.transparencyMode
        = exampleMaterial.getTransparencyMode ∧
      (exampleMaterial.updateSortKey exampleSortKey
          exampleDriver).1.substrateId
        = (exampleMaterial.updateSortKey exampleSortKey
            exampleDriver).2.substrate ∧
      (exampleMaterial.updateSortKey exampleSortKey exampleDriver).1.other
        = exampleSortKey.other) :=
  ⟨rfl,
    updateSortKey_builds_and_writes exampleMaterial exampleSortKey
      exampleDriver rfl⟩

/-- Claim C9: `getMaterialId` is stable under every operation — each setter,
the channel mutator, `addShaderModifier`, `updateSubstrate`, `fadeSnapshot`,
`getSubstrate` and `updateSortKey` — and two distinct materials have distinct
ids: every constructed material (by `create` or `copyFrom`) carries exactly
the allocator counter it was created at, the counter strictly advances at
each creation, and materials created at distinct allocator states have
distinct ids — so any two distinct materials in a creation chain differ in
id. -/
theorem materialId_stable_and_unique (m : VROMaterial) (v : Rat) (n : String)
    (mode : VROTransparencyMode) (lm : VROLightingModel) (cm : VROCullMode)
    (b : Bool) (vis : VROMaterialVisual) (modifier : Nat)
    (driver : VRODriver) (key : VROSortKey) (active : Bool)
    (nextId otherId : Nat) (hne : nextId ≠ otherId) :
    (m.setName n).getMaterialId = m.getMaterialId ∧
    (m.setShininess v).getMaterialId = m.getMaterialId ∧
    (m.setFresnelExponent v).getMaterialId = m.getMaterialId ∧
    (m.setTransparency v).getMaterialId = m.getMaterialId ∧
    (m.setTransparencyMode mode).getMaterialId = m.getMaterialId ∧
    (m.setLightingModel lm).getMaterialId = m.getMaterialId ∧
    (m.setCullMode cm).getMaterialId = m.getMaterialId ∧
    (m.setWritesToDepthBuffer b).getMaterialId = m.getMaterialId ∧
    (m.setReadsFromDepthBuffer b).getMaterialId = m.getMaterialId ∧
    (m.setDiffuse vis).getMaterialId = m.getMaterialId ∧
    (m.addShaderModifier modifier).getMaterialId = m.getMaterialId ∧
    m.updateSubstrate.getMaterialId = m.getMaterialId ∧
    (m.fadeSnapshot active).getMaterialId = m.getMaterialId ∧
    (m.getSubstrate driver).material.getMaterialId = m.getMaterialId ∧
    (m.updateSortKey key driver).2.getMaterialId = m.getMaterialId ∧
    (VROMaterial.create nextId).1.getMaterialId = nextId ∧
    (m.copyFrom nextId).getMaterialId = nextId ∧
    (VROMaterial.create nextId).2 = nextId + 1 ∧
    (VROMaterial.create nextId).1.getMaterialId
        ≠ (VROMaterial.create otherId).1.getMaterialId := by
  refine ⟨rfl, rfl, rfl, rfl, rfl, rfl, rfl, rfl, rfl, rfl, rfl, rfl, ?_,
    ?_, ?_, rfl, rfl, rfl, ?_⟩
  · cases active <;> rfl
  · cases hsub : m.substrate with
    | some t =>
        simp [VROMaterial.getSubstrate, hsub, VROMaterial.getMaterialId]
    | none =>
        cases hb : driver.buildSubstrate m.state with
        | some u =>
            simp [VROMaterial.getSubstrate, hsub, hb,
              VROMaterial.getMaterialId]
        | none =>
            simp [VROMaterial.getSubstrate, hsub, hb,
              VROMaterial.getMaterialId]
  · cases hsub : m.substrate with
    | some t =>
        simp [VROMaterial.updateSortKey, VROMaterial.getSubstrate, hsub,
          VROMaterial.getMaterialId]
    | none =>
        cases hb : driver.buildSubstrate m.state with
        | some u =>
            simp [VROMaterial.updateSortKey, VROMaterial.getSubstrate, hsub,
              hb, VROMaterial.getMaterialId]
        | none =>
            simp [VROMaterial.updateSortKey, VROMaterial.getSubstrate, hsub,
              hb, VROMaterial.getMaterialId]
  · exact hne

/-- Witness for C9 at concrete inputs: the hypothesis (the two allocator
states are distinct, 0 and 1) holds by evaluation. -/
theorem materialId_stable_and_unique_witness :
    (0 : Nat) ≠ 1 ∧
    ((exampleMaterial.setName "x").getMaterialId
        = exampleMaterial.getMaterialId ∧
      (exampleMaterial.setShininess 2).getMaterialId
        = exampleMaterial.getMaterialId ∧
      (exampleMaterial.setFresnelExponent 2).getMaterialId
        = exampleMaterial.getMaterialId ∧
      (exampleMaterial.setTransparency 2).getMaterialId
        = exampleMaterial.getMaterialId ∧
      (exampleMaterial.setTransparencyMode
          VROTransparencyMode.RGBZero).getMaterialId
        = exampleMaterial.getMaterialId ∧
      (exampleMaterial.setLightingModel
          VROLightingModel.Lambert).getMaterialId
        = exampleMaterial.getMaterialId ∧
      (exampleMaterial.setCullMode VROCullMode.Front).getMaterialId
        = exampleMaterial.getMaterialId ∧
      (exampleMaterial.setWritesToDepthBuffer false).getMaterialId
        = exampleMaterial.getMaterialId ∧
      (exampleMaterial.setReadsFromDepthBuffer false).getMaterialId
        = exampleMaterial.getMaterialId ∧
      (exampleMaterial.setDiffuse
          ⟨VROVisualContent.value 1, 1⟩).getMaterialId
        = exampleMaterial.getMaterialId ∧
      (exampleMaterial.addShaderModifier 3).getMaterialId
        = exampleMaterial.getMaterialId ∧
      exampleMaterial.updateSubstrate.getMaterialId
        = exampleMaterial.getMaterialId ∧
      (exampleMaterial.fadeSnapshot true).getMaterialId
        = exampleMaterial.getMaterialId ∧
      (exampleMaterial.getSubstrate exampleDriver).material.getMaterialId
        = exampleMaterial.getMaterialId ∧
      (exampleMaterial.updateSortKey exampleSortKey
          exampleDriver).2.getMaterialId = exampleMaterial.getMaterialId ∧
      (VROMaterial.create 0).1.getMaterialId = 0 ∧
      (exampleMaterial.copyFrom 0).getMaterialId = 0 ∧
      (VROMaterial.create 0).2 = 0 + 1 ∧
      (VROMaterial.create 0).1.getMaterialId
        ≠ (VROMaterial.create 1).1.getMaterialId) :=
  ⟨by decide,
    materialId_stable_and_unique exampleMaterial 2 "x"
      VROTransparencyMode.RGBZero VROLightingModel.Lambert VROCullMode.Front
      false ⟨VROVisualContent.value 1, 1⟩ 3 exampleDriver exampleSortKey
      true 0 1 (by decide)⟩

/-- Claim C10: `setName` changes only the debug name: `getName` returns the
new name, the resulting state differs from the old one in the name field
alone, and the substrate cache (`isUpdated`), outgoing snapshot and material
id are untouched. -/
theorem setName_changes_only_name (m : VROMaterial) (n : String) :
    (m.setName n).getName = n ∧
    (m.setName n).isUpdated = m.isUpdated ∧
    (m.setName n).substrate = m.substrate ∧
    (m.setName n).getOutgoing = m.getOutgoing ∧
    (m.setName n).getMaterialId = m.getMaterialId ∧
    (m.setName n).state = { m.state with name := n } :=
  ⟨rfl, rfl, rfl, rfl, rfl, rfl⟩
